import Mathlib

/-!
Verification of the `bootstrap-qcow2` hello-EFI program.

Part 1 embeds the source file `src/data/hello-efi.rs`: the entry point
`efi_main` calls `uefi::helpers::init().unwrap()`, logs one line, stalls for
ten million microseconds, and returns `Status::SUCCESS`. The firmware
environment is abstracted as the outcome that `uefi::helpers::init()`
would produce; `efi_main` is a function from that environment to an outcome
(either a returned status or a panic) together with the ordered trace of
observable events it emitted.

Part 2 models the boot-service facade described by the design document
(`BootSession` lifecycle, `initialize`, `log`, `stall`, `finalize`).
That layer is not present under `src/`, so it is modelled from the
spec's words; definitions in that part are marked accordingly.
-/

/-- UEFI status code as in the `uefi` crate: a machine-word result code;
code 0 is `Status::SUCCESS`. -/
structure Status where
  code : Nat
deriving DecidableEq, Repr

/-- The success status, `Status::SUCCESS` (code 0). -/
def Status.SUCCESS : Status := { code := 0 }

/-- A representative non-success status used as a concrete failing outcome
of `uefi::helpers::init()` (any nonzero code would do). -/
def loadError : Status := { code := 1 }

/-- The firmware environment visible to `efi_main`: the result that the call
`uefi::helpers::init()` produces in this execution. -/
structure Firmware where
  initOutcome : Except Status Unit

/-- Embedding of `uefi::helpers::init()`: a fallible call whose result is
supplied by the firmware environment. -/
def uefi.helpers.init (fw : Firmware) : Except Status Unit :=
  fw.initOutcome

/-- Observable events emitted by the program, in order: the initialization
attempt, a console log write, a stall request to the firmware timing
service. -/
inductive Event
  | initAttempt
  | logWrite (msg : String)
  | stallRequest (us : Nat)
deriving DecidableEq, Repr

/-- Embedding of the `info!` macro: appends one console log line to the
event trace. -/
def infoLog (msg : String) (t : List Event) : List Event :=
  t ++ [Event.logWrite msg]

/-- Embedding of `boot::stall`: appends one stall request to the event
trace. -/
def boot.stall (us : Nat) (t : List Event) : List Event :=
  t ++ [Event.stallRequest us]

/-- The log message of `src/data/hello-efi.rs` line 10. -/
def helloMsg : String := "Hello EFI world from Rust!"

/-- The stall duration of `src/data/hello-efi.rs` line 11: 10_000_000
microseconds. -/
def stallMicros : Nat := 10000000

/-- Outcome of running `efi_main`: either a `Status` returned to the firmware
loader, or a panic (from `.unwrap()` on a failed initialization), each
with the trace of events emitted up to that point. -/
inductive Outcome
  | returned (status : Status) (trace : List Event)
  | panicked (trace : List Event)
deriving DecidableEq, Repr

/-- The event trace of an outcome. -/
def Outcome.trace : Outcome → List Event
  | .returned _ t => t
  | .panicked t => t

/-- Whether the outcome returned a status to the firmware loader at all. -/
def Outcome.returnsStatus : Outcome → Bool
  | .returned _ _ => true
  | .panicked _ => false

/-- Embedding of `efi_main` in `src/data/hello-efi.rs`:
`uefi::helpers::init().unwrap()` (panics on error), then
`info!("Hello EFI world from Rust!")`, then `boot::stall(10_000_000)`,
then `Status::SUCCESS` is returned. -/
def efi_main (fw : Firmware) : Outcome :=
  let t0 : List Event := [Event.initAttempt]
  match uefi.helpers.init fw with
  | Except.error _ => Outcome.panicked t0
  | Except.ok _ =>
      let t1 := infoLog helloMsg t0
      let t2 := boot.stall stallMicros t1
      Outcome.returned Status.SUCCESS t2

/-- The console lines recorded in a trace, in order. -/
def consoleLines (t : List Event) : List String :=
  t.filterMap fun e =>
    match e with
    | Event.logWrite m => some m
    | _ => none

/-- The stall durations requested from the firmware timing service in a
trace, in order. -/
def stallRequests (t : List Event) : List Nat :=
  t.filterMap fun e =>
    match e with
    | Event.stallRequest d => some d
    | _ => none

/-- The full event trace of a successful run of `efi_main`. -/
def fullTrace : List Event :=
  [Event.initAttempt, Event.logWrite helloMsg, Event.stallRequest stallMicros]

/-- A firmware environment in which `uefi::helpers::init()` succeeds. -/
def fwOk : Firmware := { initOutcome := Except.ok () }

/-- A firmware environment in which `uefi::helpers::init()` fails. -/
def fwFail : Firmware := { initOutcome := Except.error loadError }

/-! Part 2: the boot-service facade modelled from the spec. -/

/-- Modelled from the spec: the lifecycle states of the process-wide
`BootSession` singleton (section 3), `Uninitialized → Initialized →
Terminated`. This layer is not present under `src/`. -/
inductive SessionState
  | Uninitialized
  | Initialized
  | Terminated
deriving DecidableEq, Repr

/-- Modelled from the spec: the error taxonomy of the facade
(section 7). -/
inductive BootError
  | AlreadyInitialized
  | NotInitialized
  | ConsoleWriteFailure
  | FirmwareServiceUnavailable
deriving DecidableEq, Repr

/-- Modelled from the spec: the `Status` result code of the design
document, `Success` or `Failure(reason)` (section 3). -/
inductive SpecStatus
  | Success
  | Failure (reason : BootError)
deriving DecidableEq, Repr

/-- Modelled from the spec: the `BootSession` state, with its lifecycle
state, the mock console contents, and the list of durations requested
from the mock firmware timing service. -/
structure BootSession where
  state : SessionState
  console : List String
  stalls : List Nat
deriving DecidableEq, Repr

/-- A fresh, uninitialized session. -/
def BootSession.new : BootSession :=
  { state := SessionState.Uninitialized, console := [], stalls := [] }

/-- Modelled from the spec: `initialize()` (section 4.1). May be called at
most once per session; a second call fails with `AlreadyInitialized`. On
success it transitions `Uninitialized` to `Initialized`; on failure
(firmware service unavailable) the state is kept at `Uninitialized`. The
`fwAvailable` flag models whether the firmware console service is
available. -/
def startSession (fwAvailable : Bool) (s : BootSession) :
    Except BootError Unit × BootSession :=
  match s.state with
  | SessionState.Uninitialized =>
      if fwAvailable then
        (Except.ok (), { s with state := SessionState.Initialized })
      else
        (Except.error BootError.FirmwareServiceUnavailable, s)
  | _ => (Except.error BootError.AlreadyInitialized, s)

/-- Modelled from the spec: `log(message)` (section 4.1). Requires the
session to be `Initialized`; otherwise it fails with `NotInitialized`
and leaves the session unchanged. On success it appends the message as
one line on the mock console. -/
def logOp (msg : String) (s : BootSession) :
    Except BootError Unit × BootSession :=
  match s.state with
  | SessionState.Initialized =>
      (Except.ok (), { s with console := s.console ++ [msg] })
  | _ => (Except.error BootError.NotInitialized, s)

/-- Modelled from the spec: `stall(duration)` (section 4.1). Requires the
session to be `Initialized`; otherwise it fails with `NotInitialized`
and leaves the session unchanged. On success it requests exactly the
given duration from the firmware timing service. -/
def stallOp (d : Nat) (s : BootSession) :
    Except BootError Unit × BootSession :=
  match s.state with
  | SessionState.Initialized =>
      (Except.ok (), { s with stalls := s.stalls ++ [d] })
  | _ => (Except.error BootError.NotInitialized, s)

/-- Modelled from the spec: `finalize()` (section 4.1). Maps normal
completion to `Success` and transitions the session to `Terminated`. -/
def finalizeOp (s : BootSession) : SpecStatus × BootSession :=
  (SpecStatus.Success, { s with state := SessionState.Terminated })

/-- Modelled from the spec: the mock firmware timing service blocks for at
least the requested duration; `extraDelay` is the firmware-chosen
overshoot beyond the request. -/
def mockObservedElapsed (requested extraDelay : Nat) : Nat :=
  requested + extraDelay

/-- The log message of the spec's scenario in section 8. -/
def helloScenarioMsg : String := "Hello EFI world"

/-- Session after `initialize()` in the spec's scenario. -/
def scenarioS1 : BootSession := (startSession true BootSession.new).2

/-- Session after `log("Hello EFI world")` in the spec's scenario. -/
def scenarioS2 : BootSession := (logOp helloScenarioMsg scenarioS1).2

/-- Session after `stall(10_000_000)` in the spec's scenario. -/
def scenarioS3 : BootSession := (stallOp stallMicros scenarioS2).2

/-! Theorems settling the claims. -/

/-- Claim C1: for every execution of `efi_main` in which `uefi::helpers::init()`
succeeds, `efi_main` writes exactly one log line to the firmware console,
requests exactly one stall of 10_000_000 microseconds, and returns
`Status::SUCCESS`. -/
theorem main_success_one_line_one_stall (fw : Firmware)
    (h : uefi.helpers.init fw = Except.ok ()) :
    efi_main fw = Outcome.returned Status.SUCCESS fullTrace ∧
    consoleLines (efi_main fw).trace = [helloMsg] ∧
    stallRequests (efi_main fw).trace = [stallMicros] := by
  have hm : efi_main fw = Outcome.returned Status.SUCCESS fullTrace := by
    unfold efi_main
    rw [h]
    rfl
  exact ⟨hm, by rw [hm]; rfl, by rw [hm]; rfl⟩

/-- Witness for C1 at the concrete environment `fwOk`. -/
theorem main_success_one_line_one_stall_witness :
    efi_main fwOk = Outcome.returned Status.SUCCESS fullTrace ∧
    consoleLines (efi_main fwOk).trace = [helloMsg] ∧
    stallRequests (efi_main fwOk).trace = [stallMicros] :=
  main_success_one_line_one_stall fwOk rfl

/-- Claim C2: in the scenario `initialize()` then `log("Hello EFI world")`
then `stall(10_000_000)` then `finalize()`, every step succeeds, the
returned status is `Success`, and the mock console records exactly one
line equal to "Hello EFI world". -/
theorem scenario_success_one_line :
    (startSession true BootSession.new).1 = Except.ok () ∧
    (logOp helloScenarioMsg scenarioS1).1 = Except.ok () ∧
    (stallOp stallMicros scenarioS2).1 = Except.ok () ∧
    (finalizeOp scenarioS3).1 = SpecStatus.Success ∧
    (finalizeOp scenarioS3).2.console = [helloScenarioMsg] :=
  ⟨rfl, rfl, rfl, rfl, rfl⟩

/-- Claim C3 counterexample: in the execution of `efi_main` where
`uefi::helpers::init()` fails, `efi_main` panics at the `.unwrap()` and no
`Status` value is returned to the firmware loader at all, so it is not
the case that every execution of `efi_main` finally returns a `Status`. -/
theorem main_init_failure_returns_no_status :
    efi_main fwFail = Outcome.panicked [Event.initAttempt] ∧
    (efi_main fwFail).returnsStatus = false :=
  ⟨rfl, rfl⟩

/-- Claim C3 (amended): in every execution of `efi_main`, initialization comes
first and no log or stall precedes it; the trace is the initialization
followed by zero or more log writes followed by zero or more stall
requests; when initialization succeeds a `Status` is finally returned,
and when initialization fails `efi_main` panics and returns no status. -/
theorem main_operation_order (fw : Firmware) :
    (efi_main fw).trace.head? = some Event.initAttempt ∧
    (∃ (logs : List String) (stalls : List Nat), (efi_main fw).trace =
      Event.initAttempt ::
        (logs.map Event.logWrite ++ stalls.map Event.stallRequest)) ∧
    ((∃ u, uefi.helpers.init fw = Except.ok u) →
      (efi_main fw).returnsStatus = true) ∧
    ((∃ e, uefi.helpers.init fw = Except.error e) →
      (efi_main fw).returnsStatus = false) := by
  obtain ⟨r⟩ := fw
  cases r with
  | error e =>
      refine ⟨rfl, ⟨[], [], rfl⟩, ?_, fun _ => rfl⟩
      rintro ⟨u, hu⟩
      exact absurd hu (by simp [uefi.helpers.init])
  | ok u =>
      refine ⟨rfl, ⟨[helloMsg], [stallMicros], rfl⟩, fun _ => rfl, ?_⟩
      rintro ⟨e, he⟩
      exact absurd he (by simp [uefi.helpers.init])

/-- Witness for the amended C3 at the concrete environment `fwOk`. -/
theorem main_operation_order_witness :
    (efi_main fwOk).trace.head? = some Event.initAttempt ∧
    (∃ (logs : List String) (stalls : List Nat), (efi_main fwOk).trace =
      Event.initAttempt ::
        (logs.map Event.logWrite ++ stalls.map Event.stallRequest)) ∧
    ((∃ u, uefi.helpers.init fwOk = Except.ok u) →
      (efi_main fwOk).returnsStatus = true) ∧
    ((∃ e, uefi.helpers.init fwOk = Except.error e) →
      (efi_main fwOk).returnsStatus = false) :=
  main_operation_order fwOk

/-- Claim C4: calling `log` or `stall` on a session that is not yet
initialized fails with `NotInitialized` and leaves the session (console
and timer state included) unchanged; it never silently proceeds. -/
theorem log_stall_before_init_fail (s : BootSession) (msg : String) (d : Nat)
    (h : s.state = SessionState.Uninitialized) :
    logOp msg s = (Except.error BootError.NotInitialized, s) ∧
    stallOp d s = (Except.error BootError.NotInitialized, s) := by
  obtain ⟨st, cns, sts⟩ := s
  cases st with
  | Uninitialized => exact ⟨rfl, rfl⟩
  | Initialized => simp at h
  | Terminated => simp at h

/-- Witness for C4 at the fresh session and concrete arguments. -/
theorem log_stall_before_init_fail_witness :
    logOp helloScenarioMsg BootSession.new =
      (Except.error BootError.NotInitialized, BootSession.new) ∧
    stallOp stallMicros BootSession.new =
      (Except.error BootError.NotInitialized, BootSession.new) :=
  log_stall_before_init_fail BootSession.new helloScenarioMsg stallMicros rfl

/-- Claim C5: if `initialize()` has already succeeded on a session, a
second `initialize()` call on the resulting session returns
`AlreadyInitialized` and leaves the session state, console state and
timer state unchanged. -/
theorem second_init_already_initialized (a1 a2 : Bool) (s0 : BootSession)
    (h : (startSession a1 s0).1 = Except.ok ()) :
    startSession a2 ((startSession a1 s0).2) =
      (Except.error BootError.AlreadyInitialized, (startSession a1 s0).2) := by
  obtain ⟨st, cns, sts⟩ := s0
  cases st with
  | Uninitialized =>
      cases a1 with
      | false => simp [startSession] at h
      | true => rfl
  | Initialized => simp [startSession] at h
  | Terminated => simp [startSession] at h

/-- Witness for C5 at the fresh session with the firmware service
available both times. -/
theorem second_init_already_initialized_witness :
    startSession true ((startSession true BootSession.new).2) =
      (Except.error BootError.AlreadyInitialized,
        (startSession true BootSession.new).2) :=
  second_init_already_initialized true true BootSession.new rfl

/-- Claim C6: for every duration `d`, `stall(d)` on an initialized session
requests exactly `d` (hence at least `d`) microseconds from the firmware
timing service, and in the mock timing model the observed elapsed time
is at least the requested duration `d`. -/
theorem stall_requests_at_least (s : BootSession) (d extra : Nat)
    (h : s.state = SessionState.Initialized) :
    (stallOp d s).1 = Except.ok () ∧
    (stallOp d s).2.stalls = s.stalls ++ [d] ∧
    d ≤ mockObservedElapsed d extra := by
  obtain ⟨st, cns, sts⟩ := s
  cases st with
  | Initialized => exact ⟨rfl, rfl, Nat.le_add_right d extra⟩
  | Uninitialized => simp at h
  | Terminated => simp at h

/-- Witness for C6 on the concrete initialized session of the scenario. -/
theorem stall_requests_at_least_witness :
    (stallOp stallMicros scenarioS1).1 = Except.ok () ∧
    (stallOp stallMicros scenarioS1).2.stalls = scenarioS1.stalls ++ [stallMicros] ∧
    stallMicros ≤ mockObservedElapsed stallMicros 3 :=
  stall_requests_at_least scenarioS1 stallMicros 3 rfl

/-- Claim C7 counterexample: in the execution where `uefi::helpers::init()`
fails, `efi_main` panics at the `.unwrap()`; it does not return any status,
so in particular it does not return a non-success `Status` to the
firmware loader. -/
theorem main_init_failure_panics :
    efi_main fwFail = Outcome.panicked [Event.initAttempt] ∧
    ∀ st t, efi_main fwFail ≠ Outcome.returned st t :=
  ⟨rfl, fun _ _ h => Outcome.noConfusion h⟩

/-- Claim C7 (amended): for every execution of `efi_main` in which
`uefi::helpers::init()` fails, the fault is fail-fast rather than
silent: `efi_main` panics immediately after the initialization attempt,
performs no log or stall, and returns no status at all — in particular
it never returns `Status::SUCCESS` after a failed initialization. -/
theorem main_init_failure_fail_fast (fw : Firmware) (e : Status)
    (h : uefi.helpers.init fw = Except.error e) :
    efi_main fw = Outcome.panicked [Event.initAttempt] ∧
    (efi_main fw).returnsStatus = false ∧
    ∀ t, efi_main fw ≠ Outcome.returned Status.SUCCESS t := by
  have hm : efi_main fw = Outcome.panicked [Event.initAttempt] := by
    unfold efi_main
    rw [h]
  exact ⟨hm, by rw [hm]; rfl, fun t hc => by rw [hm] at hc; exact Outcome.noConfusion hc⟩

/-- Witness for the amended C7 at the concrete environment `fwFail`. -/
theorem main_init_failure_fail_fast_witness :
    efi_main fwFail = Outcome.panicked [Event.initAttempt] ∧
    (efi_main fwFail).returnsStatus = false ∧
    ∀ t, efi_main fwFail ≠ Outcome.returned Status.SUCCESS t :=
  main_init_failure_fail_fast fwFail loadError rfl

/-- Claim C8: for every execution of `efi_main` in which `uefi::helpers::init()`
fails, no observable side effect occurs afterwards — the console records
zero writes and no stall is requested — and, in the facade model, a
failed `initialize()` keeps the session in the `Uninitialized` state,
unchanged. -/
theorem init_failure_no_side_effects (fw : Firmware) (e : Status)
    (s : BootSession) (h : uefi.helpers.init fw = Except.error e)
    (hs : s.state = SessionState.Uninitialized) :
    consoleLines (efi_main fw).trace = [] ∧
    stallRequests (efi_main fw).trace = [] ∧
    (startSession false s).2 = s ∧
    (startSession false s).2.state = SessionState.Uninitialized := by
  have hm : efi_main fw = Outcome.panicked [Event.initAttempt] := by
    unfold efi_main
    rw [h]
  obtain ⟨st, cns, sts⟩ := s
  cases st with
  | Uninitialized =>
      exact ⟨by rw [hm]; rfl, by rw [hm]; rfl, rfl, rfl⟩
  | Initialized => simp at hs
  | Terminated => simp at hs

/-- Witness for C8 at the concrete environment `fwFail` and the fresh
session. -/
theorem init_failure_no_side_effects_witness :
    consoleLines (efi_main fwFail).trace = [] ∧
    stallRequests (efi_main fwFail).trace = [] ∧
    (startSession false BootSession.new).2 = BootSession.new ∧
    (startSession false BootSession.new).2.state = SessionState.Uninitialized :=
  init_failure_no_side_effects fwFail loadError BootSession.new rfl rfl

/-- Claim C9: every execution of `efi_main` that returns a value at all returns
exactly `Status::SUCCESS`; no execution path returns a non-success
status (failure can only manifest as a panic). -/
theorem main_returns_only_success (fw : Firmware) (st : Status)
    (t : List Event) (h : efi_main fw = Outcome.returned st t) :
    st = Status.SUCCESS := by
  obtain ⟨r⟩ := fw
  cases r with
  | error e => exact absurd h (by unfold efi_main; exact fun hc => Outcome.noConfusion hc)
  | ok u =>
      have : Outcome.returned Status.SUCCESS fullTrace = Outcome.returned st t := by
        rw [← h]; rfl
      exact (Outcome.returned.injEq _ _ _ _ ▸ this).1.symm

/-- Witness for C9 at the concrete environment `fwOk`. -/
theorem main_returns_only_success_witness :
    Status.SUCCESS = Status.SUCCESS :=
  main_returns_only_success fwOk Status.SUCCESS fullTrace rfl

/-- Claim C10: `efi_main` is deterministic with respect to the firmware
environment: any two executions in which initialization succeeds produce
the identical trace (one console line "Hello EFI world from Rust!", one
stall request of 10_000_000 microseconds) and the identical return value
`Status::SUCCESS`. -/
theorem main_deterministic_on_success (fw1 fw2 : Firmware)
    (h1 : uefi.helpers.init fw1 = Except.ok ())
    (h2 : uefi.helpers.init fw2 = Except.ok ()) :
    efi_main fw1 = efi_main fw2 ∧
    efi_main fw1 = Outcome.returned Status.SUCCESS fullTrace ∧
    consoleLines fullTrace = [helloMsg] ∧
    stallRequests fullTrace = [stallMicros] := by
  have hm1 : efi_main fw1 = Outcome.returned Status.SUCCESS fullTrace := by
    unfold efi_main
    rw [h1]
    rfl
  have hm2 : efi_main fw2 = Outcome.returned Status.SUCCESS fullTrace := by
    unfold efi_main
    rw [h2]
    rfl
  exact ⟨by rw [hm1, hm2], hm1, rfl, rfl⟩

/-- Witness for C10 at the concrete environment `fwOk` used twice. -/
theorem main_deterministic_on_success_witness :
    efi_main fwOk = efi_main fwOk ∧
    efi_main fwOk = Outcome.returned Status.SUCCESS fullTrace ∧
    consoleLines fullTrace = [helloMsg] ∧
    stallRequests fullTrace = [stallMicros] :=
  main_deterministic_on_success fwOk fwOk rfl rfl
